import Mathlib

/-!
Verification development for the code-sync sidecar (bifrostinc/code-sync-mcp).

The definitions below are a shallow embedding of the Go sources:
- the wire data model from `src/proto/ws.proto` (note: `PushMessage` carries
  no `environment_variables` field in the proto),
- the push handling pipeline from `src/code-sync-sidecar/file_syncer.go`
  (`handlePushRequest`, `processDatabaseBranchUpdates`, `applyRsyncBatch`),
- the environment file manager (`EnvironmentManager.UpdateFromPush`,
  `escapeEnvValue`),
- the connection run loop and `Stop` of `FileSyncer`.

External effects (the rsync process, the HTTP database-env refresh, the
SIGHUP delivery to the launcher, filesystem operation outcomes) are modelled
by an oracle record `ExecEnv` giving each call site its outcome; the handler
records its externally visible actions as a trace of `Event`s.

Machine bytes are modelled as `List Nat` (the batch payload is opaque to the
sidecar), `filepath.Join a b` as `a ++ "/" ++ b`, and Go's `map[string]string`
as an association list whose keys are distinct.
-/

namespace CodeSync

/-- Push status enum from ws.proto (`PushResponse.PushStatus`). -/
inductive PushStatus
  | unknown
  | pending
  | inProgress
  | failed
  | completed
deriving DecidableEq, Repr

/-- One database branch update entry, from ws.proto (`DatabaseBranchUpdate`). -/
structure DatabaseBranchUpdate where
  databaseName : String
  previousBranchId : String
  newBranchId : String
  branchCreated : Bool
  parentBranchId : String
deriving DecidableEq, Repr

/-- The push request payload, from ws.proto (`PushMessage`, fields 1-8).
The proto defines exactly these fields; in particular there is no
`environment_variables` field. -/
structure PushMessage where
  pushId : String
  batchFile : List Nat
  codeDiff : String
  changeDescription : String
  filesChanged : Int
  additions : Int
  deletions : Int
  databaseBranchUpdates : List DatabaseBranchUpdate
deriving DecidableEq, Repr

/-- The push response payload, from ws.proto (`PushResponse`). -/
structure PushResponse where
  status : PushStatus
  errorMessage : String
  pushId : String
deriving DecidableEq, Repr

/-- `buildPushResponse` from file_syncer.go (the `WebsocketMessage` envelope
is dropped; only the `PushResponse` payload matters to the claims). -/
def buildPushResponse (pushID : String) (status : PushStatus) (errorMessage : String) : PushResponse :=
  { status := status, errorMessage := errorMessage, pushId := pushID }

/-- `getSidecarDir` from main.go: `filepath.Join(filesDir, ".sidecar")`. -/
def getSidecarDir (filesDir : String) : String := filesDir ++ "/.sidecar"

/-- `getLauncherDir` from main.go: `filepath.Join(filesDir, ".launcher")`. -/
def getLauncherDir (filesDir : String) : String := filesDir ++ "/.launcher"

/-- The rsync binary path constant from file_syncer.go. -/
def rsyncPath : String := "/app/bin/rsync"

/-- Outcome of one invocation of the external rsync binary. -/
inductive RsyncOutcome
  | success
  | nonzeroExit (output : String)
  | timeout
deriving DecidableEq, Repr

/-- Externally visible actions taken while handling one push request. -/
inductive Event
  | envRefresh (ok : Bool)
  | signal (ok : Bool)
  | createTempBatch (path : String) (data : List Nat)
  | rsyncInvoke (exe : String) (args : List String) (timeoutSeconds : Nat)
  | removeTempBatch (path : String)
  | writePushIdFile (path : String) (content : String)
  | sendResponse (resp : PushResponse)
deriving DecidableEq, Repr

/-- The files the sidecar can durably affect beneath the shared volume:
the Environment File `.sidecar/.env`, the database fragment
`.sidecar/env.sh`, the `.launcher/push_id` file, and (abstractly) the
batches applied to the target directory. -/
structure FsState where
  envFile : Option String
  dbEnvFile : Option String
  pushIdFile : Option String
  appliedBatches : List (List Nat)
deriving DecidableEq, Repr

/-- Oracle giving the outcome of every external / fallible operation the
push handler performs, in program order. `Modelled from the spec:` the
internals of `sendSignalToLauncher` and `writeDatabaseEnvFile` (the signal
delivery to the pid in `.launcher/launcher.pid` and the HTTP refresh of the
database env fragment) live outside src/; here only their success or
failure and the refreshed content are modelled, as the spec describes them
as fallible external collaborators. -/
structure ExecEnv where
  writeDatabaseEnvFileOk : Bool
  refreshedDbEnv : String
  signalDbOk : Bool
  mkdirSidecarOk : Bool
  createTempOk : Bool
  tempName : String
  writeTempOk : Bool
  closeTempOk : Bool
  mkdirTargetOk : Bool
  rsync : RsyncOutcome
  mkdirLauncherOk : Bool
  writePushIdOk : Bool
  signalBatchOk : Bool
deriving DecidableEq, Repr

/-- Result of one handler step: the trace of externally visible events, the
final filesystem state, and the Go error (`none` is a nil error). -/
structure StepOut where
  trace : List Event
  fs : FsState
  result : Option String
deriving DecidableEq, Repr

/-- `processDatabaseBranchUpdates` from file_syncer.go: on a non-empty
update list, refresh the database env file (failure returns the error
before any signal), then send SIGHUP to the launcher. -/
def processDatabaseBranchUpdates (env : ExecEnv) (updates : List DatabaseBranchUpdate)
    (fs : FsState) : StepOut :=
  if updates = [] then
    { trace := [], fs := fs, result := none }
  else if env.writeDatabaseEnvFileOk = false then
    { trace := [Event.envRefresh false], fs := fs,
      result := some "failed to refresh database env file" }
  else
    let fs1 : FsState := { fs with dbEnvFile := some env.refreshedDbEnv }
    if env.signalDbOk = false then
      { trace := [Event.envRefresh true, Event.signal false], fs := fs1,
        result := some "failed to send SIGHUP after database update" }
    else
      { trace := [Event.envRefresh true, Event.signal true], fs := fs1, result := none }

/-- The path of the temporary batch file `os.CreateTemp` produces inside the
`.sidecar` control directory (`sync_batch_*.bin`; the random part is the
oracle's `tempName`). -/
def tempBatchPath (env : ExecEnv) (dir : String) : String :=
  getSidecarDir dir ++ "/" ++ env.tempName

/-- The exact rsync invocation from `applyRsyncBatch`:
`/app/bin/rsync --archive --read-batch=<tempBatchPath> <dir>/` under a
60-second timeout. -/
def rsyncInvocation (env : ExecEnv) (dir : String) : Event :=
  Event.rsyncInvoke rsyncPath
    ["--archive", "--read-batch=" ++ tempBatchPath env dir, dir ++ "/"] 60

/-- `applyRsyncBatch` from file_syncer.go: empty batch is a no-op; otherwise
create the sidecar dir, write the batch to a temp file
`sync_batch_*.bin` inside it, run
`/app/bin/rsync --archive --read-batch=<temp> <dir>/` under a 60s timeout,
and (via `defer os.Remove`) remove the temp file at function exit on every
path after its creation. -/
def applyRsyncBatch (env : ExecEnv) (dir : String) (batchData : List Nat)
    (fs : FsState) : StepOut :=
  if batchData = [] then
    { trace := [], fs := fs, result := none }
  else if env.mkdirSidecarOk = false then
    { trace := [], fs := fs, result := some "failed to create sidecar directory" }
  else if env.createTempOk = false then
    { trace := [], fs := fs, result := some "failed to create temporary batch file" }
  else
    let created := Event.createTempBatch (tempBatchPath env dir) batchData
    if env.writeTempOk = false then
      { trace := [created, Event.removeTempBatch (tempBatchPath env dir)], fs := fs,
        result := some "failed to write to temporary batch file" }
    else if env.closeTempOk = false then
      { trace := [created, Event.removeTempBatch (tempBatchPath env dir)], fs := fs,
        result := some "failed to close temporary batch file" }
    else if env.mkdirTargetOk = false then
      { trace := [created, Event.removeTempBatch (tempBatchPath env dir)], fs := fs,
        result := some "failed to create target sync directory" }
    else
      match env.rsync with
      | RsyncOutcome.success =>
          { trace := [created, rsyncInvocation env dir,
              Event.removeTempBatch (tempBatchPath env dir)],
            fs := { fs with appliedBatches := fs.appliedBatches ++ [batchData] },
            result := none }
      | RsyncOutcome.nonzeroExit output =>
          { trace := [created, rsyncInvocation env dir,
              Event.removeTempBatch (tempBatchPath env dir)], fs := fs,
            result := some ("rsync command failed. Output: " ++ output) }
      | RsyncOutcome.timeout =>
          { trace := [created, rsyncInvocation env dir,
              Event.removeTempBatch (tempBatchPath env dir)], fs := fs,
            result := some "rsync command timed out" }

/-- The database-updates prefix of `handlePushRequest`: updates (when any)
are processed first and a failure is only logged, never propagated. -/
def handlerDbStep (env : ExecEnv) (m : PushMessage) (fs : FsState) : StepOut :=
  if m.databaseBranchUpdates = [] then
    { trace := [], fs := fs, result := none }
  else
    processDatabaseBranchUpdates env m.databaseBranchUpdates fs

/-- `handlePushRequest` from file_syncer.go. A nil payload returns an error
with no response. Database branch updates are processed first and their
failure is only logged. A non-empty batch is applied; on failure a FAILED
response is sent. On success the push id is written to
`.launcher/push_id` (errors on that path return without sending any
response), then SIGHUP is sent (failure sends a FAILED response). Finally a
COMPLETED response is sent, also for pushes with an empty batch. -/
def handlePushRequest (env : ExecEnv) (dir : String) (pushMsg : Option PushMessage)
    (fs : FsState) : StepOut :=
  match pushMsg with
  | none =>
      { trace := [], fs := fs,
        result := some "received PUSH_REQUEST but push_message field is nil" }
  | some m =>
    let dbOut : StepOut := handlerDbStep env m fs
    if m.batchFile = [] then
      { trace := dbOut.trace ++
          [Event.sendResponse (buildPushResponse m.pushId PushStatus.completed "")],
        fs := dbOut.fs, result := none }
    else
      let b := applyRsyncBatch env dir m.batchFile dbOut.fs
      match b.result with
      | some e =>
          { trace := dbOut.trace ++ b.trace ++
              [Event.sendResponse (buildPushResponse m.pushId PushStatus.failed
                ("Push application failed: " ++ e))],
            fs := b.fs, result := some ("push application failed: " ++ e) }
      | none =>
          if env.mkdirLauncherOk = false then
            { trace := dbOut.trace ++ b.trace, fs := b.fs,
              result := some "failed to ensure launcher directory exists" }
          else if env.writePushIdOk = false then
            { trace := dbOut.trace ++ b.trace, fs := b.fs,
              result := some "failed to write pushID to file" }
          else
            let fs2 : FsState := { b.fs with pushIdFile := some m.pushId }
            let wrote := Event.writePushIdFile (getLauncherDir dir ++ "/push_id") m.pushId
            if env.signalBatchOk = false then
              { trace := dbOut.trace ++ b.trace ++
                  [wrote, Event.signal false,
                   Event.sendResponse (buildPushResponse m.pushId PushStatus.failed
                     "Failed to send SIGHUP")],
                fs := fs2, result := some "failed to send SIGHUP" }
            else
              { trace := dbOut.trace ++ b.trace ++
                  [wrote, Event.signal true,
                   Event.sendResponse (buildPushResponse m.pushId PushStatus.completed "")],
                fs := fs2, result := none }

/-- Whether an event is a terminal push response (FAILED or COMPLETED). -/
def Event.isTerminalResponse : Event → Bool
  | Event.sendResponse r =>
      r.status = PushStatus.failed || r.status = PushStatus.completed
  | _ => false

/-- The terminal responses occurring in a trace. -/
def terminalResponses (tr : List Event) : List PushResponse :=
  tr.filterMap fun e =>
    match e with
    | Event.sendResponse r =>
        if r.status = PushStatus.failed || r.status = PushStatus.completed then some r
        else none
    | _ => none

/-- Whether an event is a SIGHUP signal to the launcher. -/
def Event.isSignal : Event → Bool
  | Event.signal _ => true
  | _ => false

/-- Whether an event is the rsync invocation. -/
def Event.isRsyncInvoke : Event → Bool
  | Event.rsyncInvoke _ _ _ => true
  | _ => false

/-- The suffix of a trace starting at the first rsync invocation (empty when
rsync is never invoked). -/
def fromFirstRsync (tr : List Event) : List Event :=
  tr.dropWhile fun e => !e.isRsyncInvoke

/-! ## Environment manager (env_manager.go, src/unnamed/part_004) -/

/-- The single-quote character, written by code point to keep literals plain. -/
def squote : Char := Char.ofNat 39

/-- The double-quote character, written by code point. -/
def dquote : Char := Char.ofNat 34

/-- The backtick character, written by code point. -/
def backquote : Char := Char.ofNat 96

/-- The backslash character, written by code point. -/
def backslash : Char := Char.ofNat 92

/-- The character class `escapeEnvValue` treats as special, exactly the list
in env_manager.go: space, tab, newline, carriage return, double quote,
single quote, backslash, dollar, backtick, pipe, ampersand, semicolon,
parentheses, angle brackets. -/
def isSpecialChar (c : Char) : Bool :=
  c = ' ' || c = Char.ofNat 9 || c = Char.ofNat 10 || c = Char.ofNat 13 ||
  c = dquote || c = squote || c = backslash || c = '$' ||
  c = backquote || c = '|' || c = '&' || c = ';' ||
  c = '(' || c = ')' || c = '<' || c = '>'

/-- Character-level expansion of Go's
`strings.ReplaceAll(value, "'", "'\"'\"'")`: each single quote becomes the
five characters quote, double-quote, quote, double-quote, quote; every other
character is kept. -/
def escQuoteChar (c : Char) : List Char :=
  if c = squote then [squote, dquote, squote, dquote, squote] else [c]

/-- `escapeEnvValue` from env_manager.go at the character level: the empty
value renders as two single quotes; a value with no special character is
returned unchanged; otherwise every single quote is replaced by
quote-doublequote-quote-doublequote-quote and the result is wrapped in
single quotes. -/
def escapeEnvValueList (v : List Char) : List Char :=
  if v = [] then [squote, squote]
  else if v.any isSpecialChar = false then v
  else squote :: (v.flatMap escQuoteChar) ++ [squote]

/-- `escapeEnvValue` from env_manager.go, on `String`. -/
def escapeEnvValue (value : String) : String :=
  String.mk (escapeEnvValueList value.toList)

/-- One rendered line of the Environment File, from `UpdateFromPush`:
`fmt.Sprintf("export %s=%s", key, escapeEnvValue(value))`. -/
def renderEnvLine (kv : String × String) : String :=
  "export " ++ kv.1 ++ "=" ++ escapeEnvValue kv.2

/-- The key ordering used by `UpdateFromPush` (`sort.Strings` on the keys). -/
def envKeyLe (a b : String × String) : Bool := a.1 ≤ b.1

/-- The environment pairs in the order `UpdateFromPush` writes them:
sorted by key. The Go map is embedded as an association list with distinct
keys. -/
def sortEnvPairs (vars : List (String × String)) : List (String × String) :=
  vars.mergeSort envKeyLe

/-- The full Environment File content `UpdateFromPush` builds:
`strings.Join(lines, "\n")` plus a trailing newline when any line exists. -/
def renderEnvContent (vars : List (String × String)) : String :=
  let lines := (sortEnvPairs vars).map renderEnvLine
  if lines = [] then "" else String.intercalate (String.mk [Char.ofNat 10]) lines ++ String.mk [Char.ofNat 10]

/-- The environment manager state: the path of the Environment File and its
directory, from `NewEnvironmentManager` (`filepath.Join(sidecarDir, ".env")`).
`sidecarDir` is kept so the `MkdirAll` target is expressible. -/
structure EnvironmentManager where
  sidecarDir : String
  envFilePath : String
deriving DecidableEq, Repr

/-- `NewEnvironmentManager` from env_manager.go. -/
def NewEnvironmentManager (targetSyncDir : String) : EnvironmentManager :=
  { sidecarDir := getSidecarDir targetSyncDir,
    envFilePath := getSidecarDir targetSyncDir ++ "/.env" }

/-- A primitive filesystem operation, used to model the write-temp-then-
rename sequence of `UpdateFromPush` at the granularity where a crash can
interleave. -/
inductive FsOp
  | mkdirAll (path : String)
  | writeFile (path : String) (content : String)
  | rename (src : String) (dst : String)
deriving DecidableEq, Repr

/-- The exact operation sequence of a successful `UpdateFromPush` run, from
env_manager.go: ensure the directory, write the full rendering to
`<envFilePath>.tmp`, rename the temp file onto the Environment File. -/
def updateFromPushOps (em : EnvironmentManager) (vars : List (String × String)) : List FsOp :=
  [FsOp.mkdirAll em.sidecarDir,
   FsOp.writeFile (em.envFilePath ++ ".tmp") (renderEnvContent vars),
   FsOp.rename (em.envFilePath ++ ".tmp") em.envFilePath]

/-- Effect of one completed filesystem operation on a file map
(path to content; `none` is absent). `rename` is atomic. -/
def applyFsOp (fs : String → Option String) : FsOp → (String → Option String)
  | FsOp.mkdirAll _ => fs
  | FsOp.writeFile p c => fun q => if q = p then some c else fs q
  | FsOp.rename src dst => fun q =>
      if q = dst then fs src else if q = src then none else fs q

/-- Run a list of filesystem operations to completion. -/
def runFsOps (ops : List FsOp) (fs : String → Option String) : String → Option String :=
  ops.foldl applyFsOp fs

/-- State of the filesystem when execution crashes at operation `k`: the
first `k` operations completed; if operation `k` is a `writeFile`, the crash
may additionally leave arbitrary partial content `part` in the target file
(a torn write). `mkdirAll` and `rename` are atomic, so crashing during them
leaves the `k`-prefix state. -/
def crashState (ops : List FsOp) (fs : String → Option String) (k : Nat)
    (part : Option String) : String → Option String :=
  let base := runFsOps (ops.take k) fs
  match part, ops.get? k with
  | some s, some (FsOp.writeFile p _) => fun q => if q = p then some s else base q
  | _, _ => base

/-- The final Environment File content after `UpdateFromPush` with the given
variables (the handler-level summary used by the push model). -/
def updateFromPushEnvFile (vars : List (String × String)) : Option String :=
  some (renderEnvContent vars)

/-! ## POSIX shell quoting model, for the escaping round trip

Modelled from the spec: the shell that sources the Environment File is an
external collaborator; §8 requires that sourcing reproduces each value
byte-for-byte. The evaluator below implements POSIX word quoting for an
assignment value: single quotes protect every character up to the closing
quote; double quotes protect every character except dollar, backquote and
backslash (which would be interpreted) up to the closing quote; an unquoted
character is literal unless it is one of the shell-special characters (the
same class `escapeEnvValue` guards against), in which case the value is not
a plain literal and evaluation is rejected; an unterminated quote is
rejected. -/

/-- Quoting mode of the shell-value scanner. -/
inductive QuoteMode
  | plain
  | single
  | double
deriving DecidableEq, Repr

/-- Scan an assignment value under POSIX quoting, returning the literal
string the shell would assign, or `none` when the text is not a plain
literal (unquoted special character, interpreted character inside double
quotes, or unterminated quote). -/
def shellUnquoteAux : QuoteMode → List Char → Option (List Char)
  | QuoteMode.plain, [] => some []
  | QuoteMode.plain, c :: rest =>
      if c = squote then shellUnquoteAux QuoteMode.single rest
      else if c = dquote then shellUnquoteAux QuoteMode.double rest
      else if isSpecialChar c then none
      else (shellUnquoteAux QuoteMode.plain rest).map fun l => c :: l
  | QuoteMode.single, [] => none
  | QuoteMode.single, c :: rest =>
      if c = squote then shellUnquoteAux QuoteMode.plain rest
      else (shellUnquoteAux QuoteMode.single rest).map fun l => c :: l
  | QuoteMode.double, [] => none
  | QuoteMode.double, c :: rest =>
      if c = dquote then shellUnquoteAux QuoteMode.plain rest
      else if c = '$' || c = backquote || c = backslash then none
      else (shellUnquoteAux QuoteMode.double rest).map fun l => c :: l

/-- Shell evaluation of an assignment value as a string. -/
def shellUnquote (s : String) : Option String :=
  (shellUnquoteAux QuoteMode.plain s.toList).map String.mk

/-! ## FileSyncer Stop and run loop (file_syncer.go lines 65-141) -/

/-- The concurrency-relevant state of a `FileSyncer`: whether the `done`
channel has been closed and whether a live connection exists. -/
structure SyncerState where
  doneClosed : Bool
  connOpen : Bool
  closeHandshakes : Nat
deriving DecidableEq, Repr

/-- Outcome of a call to `Stop`. -/
inductive StopOutcome
  | ok
  | panicked
deriving DecidableEq, Repr

/-- `FileSyncer.Stop` from file_syncer.go: `close(rw.done)` followed, when a
connection exists, by a normal-closure close message and `conn.Close()`.
Go panics on `close` of an already-closed channel, which is modelled as the
`panicked` outcome leaving the state unchanged. -/
def stopSyncer (s : SyncerState) : StopOutcome × SyncerState :=
  if s.doneClosed then
    (StopOutcome.panicked, s)
  else
    let s1 : SyncerState := { s with doneClosed := true }
    if s1.connOpen then
      (StopOutcome.ok,
        { s1 with connOpen := false, closeHandshakes := s1.closeHandshakes + 1 })
    else
      (StopOutcome.ok, s1)

/-- Control position of the `run` loop in file_syncer.go: the select at the
top of the loop, the dial, the message loop, the post-connection-loss
select, the 5-second backoff sleep (tick-counted; `time.Sleep` consults no
channel, so the sleep steps never look at the stop flag), and loop exit. -/
inductive RunPhase
  | checkTop
  | dialing
  | msgLoop
  | postLossCheck
  | sleeping (remaining : Nat)
  | exited
deriving DecidableEq, Repr

/-- State of the run loop: its control position and whether a stop has been
raised (the `done` channel closed or the context cancelled). -/
structure RunState where
  phase : RunPhase
  stopRaised : Bool
deriving DecidableEq, Repr

/-- External inputs to one step of the run loop: whether the dial succeeds
and whether the current read errors (connection loss, read timeout, or the
connection being closed by `Stop`). -/
structure RunInput where
  dialOk : Bool
  readErr : Bool
deriving DecidableEq, Repr

/-- One step of the `run` loop of file_syncer.go. The top and post-loss
selects observe the stop flag; the dial does not (the dialer takes no
context); `time.Sleep(5 * time.Second)` is uninterruptible, so a sleeping
state always ticks down regardless of the stop flag; the message loop
returns on a read error or on observing the stop flag in its select. -/
def runStep (inp : RunInput) (s : RunState) : RunState :=
  match s.phase with
  | RunPhase.checkTop =>
      if s.stopRaised then { s with phase := RunPhase.exited }
      else { s with phase := RunPhase.dialing }
  | RunPhase.dialing =>
      if inp.dialOk then { s with phase := RunPhase.msgLoop }
      else { s with phase := RunPhase.sleeping 5 }
  | RunPhase.msgLoop =>
      if inp.readErr || s.stopRaised then { s with phase := RunPhase.postLossCheck }
      else s
  | RunPhase.postLossCheck =>
      if s.stopRaised then { s with phase := RunPhase.exited }
      else { s with phase := RunPhase.sleeping 5 }
  | RunPhase.sleeping (n + 1) => { s with phase := RunPhase.sleeping n }
  | RunPhase.sleeping 0 => { s with phase := RunPhase.checkTop }
  | RunPhase.exited => s

/-- Iterate the run loop a fixed number of steps under a constant input. -/
def runSteps (inp : RunInput) : Nat → RunState → RunState
  | 0, s => s
  | n + 1, s => runSteps inp n (runStep inp s)

/-- Number of SIGHUP signals sent to the launcher in a trace. -/
def signalCount (tr : List Event) : Nat :=
  List.countP Event.isSignal tr

/-! ## Concrete sample values used by witnesses and counterexamples -/

/-- An empty shared-volume state. -/
def fsEmpty : FsState :=
  { envFile := none, dbEnvFile := none, pushIdFile := none, appliedBatches := [] }

/-- An oracle under which every external operation succeeds. -/
def envAllOk : ExecEnv :=
  { writeDatabaseEnvFileOk := true, refreshedDbEnv := "export DB_URL=x",
    signalDbOk := true, mkdirSidecarOk := true, createTempOk := true,
    tempName := "sync_batch_123.bin", writeTempOk := true, closeTempOk := true,
    mkdirTargetOk := true, rsync := RsyncOutcome.success,
    mkdirLauncherOk := true, writePushIdOk := true, signalBatchOk := true }

/-- Like `envAllOk` but the write of the push-id file fails. -/
def envNoPushIdWrite : ExecEnv := { envAllOk with writePushIdOk := false }

/-- Like `envAllOk` but rsync exits non-zero. -/
def envRsyncFail : ExecEnv :=
  { envAllOk with rsync := RsyncOutcome.nonzeroExit "rsync simulation error output" }

/-- A sample database branch update. -/
def update1 : DatabaseBranchUpdate :=
  { databaseName := "db1", previousBranchId := "b0", newBranchId := "b1",
    branchCreated := false, parentBranchId := "" }

/-- A push with no batch, no database updates. -/
def msgEmpty : PushMessage :=
  { pushId := "p1", batchFile := [], codeDiff := "", changeDescription := "",
    filesChanged := 0, additions := 0, deletions := 0, databaseBranchUpdates := [] }

/-- A push carrying only a batch. -/
def msgBatch : PushMessage :=
  { pushId := "p1", batchFile := [1, 2, 3], codeDiff := "", changeDescription := "",
    filesChanged := 1, additions := 2, deletions := 3, databaseBranchUpdates := [] }

/-- A push carrying only database branch updates. -/
def msgDbOnly : PushMessage :=
  { pushId := "p2", batchFile := [], codeDiff := "", changeDescription := "",
    filesChanged := 0, additions := 0, deletions := 0,
    databaseBranchUpdates := [update1] }

/-- A push carrying both a batch and database branch updates. -/
def msgBoth : PushMessage :=
  { pushId := "p3", batchFile := [7], codeDiff := "", changeDescription := "",
    filesChanged := 1, additions := 1, deletions := 0,
    databaseBranchUpdates := [update1] }

/-- A run-loop input with no dial success and no read error. -/
def inputQuiet : RunInput := { dialOk := false, readErr := false }

/-- A syncer with a live connection and `done` not yet closed. -/
def connectedSyncer : SyncerState :=
  { doneClosed := false, connOpen := true, closeHandshakes := 0 }

/-- A sample environment value containing a single quote and a space
(the string `a'b c`, built by code points to keep literals plain). -/
def sampleValue : String := String.mk ['a', squote, 'b', ' ', 'c']

/-! ## Helper lemmas about the push-handling sub-steps -/

theorem terminalResponses_append (l1 l2 : List Event) :
    terminalResponses (l1 ++ l2) = terminalResponses l1 ++ terminalResponses l2 :=
  List.filterMap_append l1 l2 _

theorem processDb_trace_cases (env : ExecEnv) (u : List DatabaseBranchUpdate) (fs : FsState) :
    (processDatabaseBranchUpdates env u fs).trace = [] ∨
    (processDatabaseBranchUpdates env u fs).trace = [Event.envRefresh false] ∨
    (processDatabaseBranchUpdates env u fs).trace =
      [Event.envRefresh true, Event.signal env.signalDbOk] := by
  unfold processDatabaseBranchUpdates
  by_cases h1 : u = []
  · simp [h1]
  · by_cases h2 : env.writeDatabaseEnvFileOk = false
    · simp [h1, h2]
    · by_cases h3 : env.signalDbOk = false
      · simp [h1, h2, h3]
      · simp [h1, h2, h3, eq_true_of_ne_false h3]

theorem dbStep_trace_cases (env : ExecEnv) (m : PushMessage) (fs : FsState) :
    (handlerDbStep env m fs).trace = [] ∨
    (handlerDbStep env m fs).trace = [Event.envRefresh false] ∨
    (handlerDbStep env m fs).trace =
      [Event.envRefresh true, Event.signal env.signalDbOk] := by
  unfold handlerDbStep
  by_cases h : m.databaseBranchUpdates = []
  · simp [h]
  · simp only [h, if_false]
    exact processDb_trace_cases env m.databaseBranchUpdates fs

theorem dbStep_fs_preserved (env : ExecEnv) (m : PushMessage) (fs : FsState) :
    (handlerDbStep env m fs).fs.envFile = fs.envFile ∧
    (handlerDbStep env m fs).fs.pushIdFile = fs.pushIdFile ∧
    (handlerDbStep env m fs).fs.appliedBatches = fs.appliedBatches := by
  unfold handlerDbStep processDatabaseBranchUpdates
  split_ifs <;> simp

theorem applyRsync_trace_cases (env : ExecEnv) (dir : String) (bd : List Nat) (fs : FsState) :
    (applyRsyncBatch env dir bd fs).trace = [] ∨
    (applyRsyncBatch env dir bd fs).trace =
      [Event.createTempBatch (tempBatchPath env dir) bd,
       Event.removeTempBatch (tempBatchPath env dir)] ∨
    (applyRsyncBatch env dir bd fs).trace =
      [Event.createTempBatch (tempBatchPath env dir) bd, rsyncInvocation env dir,
       Event.removeTempBatch (tempBatchPath env dir)] := by
  unfold applyRsyncBatch
  split_ifs <;> cases hr : env.rsync <;> simp [hr]

theorem applyRsync_fs_preserved (env : ExecEnv) (dir : String) (bd : List Nat) (fs : FsState) :
    (applyRsyncBatch env dir bd fs).fs.envFile = fs.envFile ∧
    (applyRsyncBatch env dir bd fs).fs.pushIdFile = fs.pushIdFile ∧
    (applyRsyncBatch env dir bd fs).fs.dbEnvFile = fs.dbEnvFile := by
  unfold applyRsyncBatch
  split_ifs <;> cases hr : env.rsync <;> simp [hr]

theorem terminalResponses_dbStep (env : ExecEnv) (m : PushMessage) (fs : FsState) :
    terminalResponses (handlerDbStep env m fs).trace = [] := by
  rcases dbStep_trace_cases env m fs with h | h | h <;> simp [h, terminalResponses]

theorem terminalResponses_applyRsync (env : ExecEnv) (dir : String) (bd : List Nat)
    (fs : FsState) :
    terminalResponses (applyRsyncBatch env dir bd fs).trace = [] := by
  rcases applyRsync_trace_cases env dir bd fs with h | h | h <;>
    simp [h, terminalResponses, rsyncInvocation]

theorem dbStep_no_pushIdEvent (env : ExecEnv) (m : PushMessage) (fs : FsState)
    (p c : String) : Event.writePushIdFile p c ∉ (handlerDbStep env m fs).trace := by
  rcases dbStep_trace_cases env m fs with h | h | h <;> simp [h]

theorem applyRsync_no_pushIdEvent (env : ExecEnv) (dir : String) (bd : List Nat)
    (fs : FsState) (p c : String) :
    Event.writePushIdFile p c ∉ (applyRsyncBatch env dir bd fs).trace := by
  rcases applyRsync_trace_cases env dir bd fs with h | h | h <;>
    simp [h, rsyncInvocation]

theorem dropWhile_append_all {α : Type} {p : α → Bool} {l1 l2 : List α}
    (h : ∀ a ∈ l1, p a = true) :
    (l1 ++ l2).dropWhile p = l2.dropWhile p := by
  induction l1 with
  | nil => rfl
  | cons a t ih =>
      rw [List.cons_append, List.dropWhile_cons, if_pos (h a (by simp))]
      exact ih fun x hx => h x (by simp [hx])

theorem dbStep_not_rsync (env : ExecEnv) (m : PushMessage) (fs : FsState) :
    ∀ e ∈ (handlerDbStep env m fs).trace, (!e.isRsyncInvoke) = true := by
  rcases dbStep_trace_cases env m fs with h | h | h <;> simp [h, Event.isRsyncInvoke]

theorem dbStep_trace_ok (env : ExecEnv) (m : PushMessage) (fs : FsState)
    (hd : m.databaseBranchUpdates ≠ []) (hok : env.writeDatabaseEnvFileOk = true) :
    (handlerDbStep env m fs).trace = [Event.envRefresh true, Event.signal env.signalDbOk] := by
  unfold handlerDbStep processDatabaseBranchUpdates
  cases hs : env.signalDbOk <;> simp [hd, hok, hs]

theorem applyRsync_success (env : ExecEnv) (dir : String) (bd : List Nat) (fs : FsState)
    (hb : bd ≠ []) (h1 : env.mkdirSidecarOk = true) (h2 : env.createTempOk = true)
    (h3 : env.writeTempOk = true) (h4 : env.closeTempOk = true)
    (h5 : env.mkdirTargetOk = true) (h6 : env.rsync = RsyncOutcome.success) :
    applyRsyncBatch env dir bd fs =
      { trace := [Event.createTempBatch (tempBatchPath env dir) bd, rsyncInvocation env dir,
                  Event.removeTempBatch (tempBatchPath env dir)],
        fs := { fs with appliedBatches := fs.appliedBatches ++ [bd] },
        result := none } := by
  unfold applyRsyncBatch
  simp [hb, h1, h2, h3, h4, h5, h6]

theorem applyRsync_signalCount (env : ExecEnv) (dir : String) (bd : List Nat)
    (fs : FsState) : signalCount (applyRsyncBatch env dir bd fs).trace = 0 := by
  rcases applyRsync_trace_cases env dir bd fs with h | h | h <;>
    simp [h, signalCount, Event.isSignal, rsyncInvocation]

theorem append_left_ne_empty {s : String} (t : String) (h : 0 < s.length) :
    s ++ t ≠ "" := by
  intro he
  have h2 := congrArg String.length he
  rw [String.length_append] at h2
  have h4 : ("" : String).length = 0 := rfl
  rw [h4] at h2
  omega

theorem handler_envFile_preserved (env : ExecEnv) (dir : String) (pm : Option PushMessage)
    (fs : FsState) :
    (handlePushRequest env dir pm fs).fs.envFile = fs.envFile := by
  cases pm with
  | none => rfl
  | some m =>
    have hdb := (dbStep_fs_preserved env m fs).1
    have hba := (applyRsync_fs_preserved env dir m.batchFile (handlerDbStep env m fs).fs).1
    unfold handlePushRequest
    dsimp only
    by_cases hb : m.batchFile = []
    · simp only [if_pos hb]
      exact hdb
    · simp only [if_neg hb]
      split
      · exact hba.trans hdb
      · split_ifs <;> exact hba.trans hdb

/-! ## Claim theorems -/

/-- C5: a PushRequest with empty `batch_file` and no database branch updates
(the wire format cannot carry an environment map at all) is handled as a
no-op that still responds COMPLETED: the filesystem state is returned
unchanged, no signal is sent, and the entire observable effect is the single
COMPLETED response. -/
theorem C5_empty_push_noop (env : ExecEnv) (dir : String) (m : PushMessage) (fs : FsState)
    (hb : m.batchFile = []) (hd : m.databaseBranchUpdates = []) :
    handlePushRequest env dir (some m) fs =
      { trace := [Event.sendResponse (buildPushResponse m.pushId PushStatus.completed "")],
        fs := fs, result := none } := by
  simp [handlePushRequest, handlerDbStep, hb, hd]

/-- Witness for C5 at a concrete empty push. -/
theorem C5_empty_push_noop_witness :
    handlePushRequest envAllOk "/app-files" (some msgEmpty) fsEmpty =
      { trace := [Event.sendResponse (buildPushResponse "p1" PushStatus.completed "")],
        fs := fsEmpty, result := none } :=
  C5_empty_push_noop envAllOk "/app-files" msgEmpty fsEmpty rfl rfl



/-- C2: contrary to the claim, handling a push never rewrites the
Environment File: the wire `PushMessage` has no environment_variables field
and `handlePushRequest` leaves `.sidecar/.env` exactly as it was in every
case, so a variable from an earlier push survives every later push;
concretely a full push applied over an Environment File holding an earlier
rendering leaves that rendering in place. -/
theorem C2_push_never_rewrites_env_file :
    (∀ env dir pm fs, (handlePushRequest env dir pm fs).fs.envFile = fs.envFile) ∧
    (handlePushRequest envAllOk "/app-files" (some msgBatch)
        { fsEmpty with envFile := updateFromPushEnvFile [("A", "1")] }).fs.envFile
      = updateFromPushEnvFile [("A", "1")] :=
  ⟨fun env dir pm fs => handler_envFile_preserved env dir pm fs,
   handler_envFile_preserved envAllOk "/app-files" (some msgBatch) _⟩

/-- C1 is violated on the code: when writing the push-id file fails after a
successful batch application, `handlePushRequest` returns an error without
sending any PushResponse — zero terminal responses for that push. -/
theorem C1_counterexample :
    terminalResponses
        (handlePushRequest envNoPushIdWrite "/app-files" (some msgBatch) fsEmpty).trace = [] ∧
    (handlePushRequest envNoPushIdWrite "/app-files" (some msgBatch) fsEmpty).result =
      some "failed to write pushID to file" := by
  constructor <;> rfl

/-- C1 (amended): for every PushRequest with a non-nil payload, provided
ensuring the launcher directory and writing the push-id file succeed, the
handler sends exactly one terminal PushResponse before returning: it echoes
the push id, is COMPLETED exactly when the handler returns no error, and a
FAILED response carries a non-empty error text. (When the launcher-dir or
push-id write fails the handler sends no response at all — see the
counterexample.) -/
theorem C1_amended (env : ExecEnv) (dir : String) (m : PushMessage) (fs : FsState)
    (hmk : env.mkdirLauncherOk = true) (hwr : env.writePushIdOk = true) :
    (terminalResponses (handlePushRequest env dir (some m) fs).trace).length = 1 ∧
    ∀ r ∈ terminalResponses (handlePushRequest env dir (some m) fs).trace,
      r.pushId = m.pushId ∧
      ((handlePushRequest env dir (some m) fs).result = none ↔
        r.status = PushStatus.completed) ∧
      (r.status = PushStatus.failed → r.errorMessage ≠ "") := by
  unfold handlePushRequest
  dsimp only
  by_cases hb : m.batchFile = []
  · simp only [if_pos hb]
    rw [terminalResponses_append, terminalResponses_dbStep]
    constructor
    · simp [terminalResponses, buildPushResponse]
    · intro r hr
      simp [terminalResponses, buildPushResponse] at hr
      subst hr
      simp [buildPushResponse]
  · simp only [if_neg hb]
    split
    · rename_i e heq
      rw [terminalResponses_append, terminalResponses_append, terminalResponses_dbStep,
          terminalResponses_applyRsync]
      constructor
      · simp [terminalResponses, buildPushResponse]
      · intro r hr
        simp [terminalResponses, buildPushResponse] at hr
        subst hr
        refine ⟨rfl, by simp [buildPushResponse], ?_⟩
        intro _
        exact append_left_ne_empty e (by decide)
    · rw [if_neg (by simp [hmk]), if_neg (by simp [hwr])]
      by_cases hsig : env.signalBatchOk = false
      · rw [if_pos hsig]
        rw [terminalResponses_append, terminalResponses_append, terminalResponses_dbStep,
            terminalResponses_applyRsync]
        constructor
        · simp [terminalResponses, buildPushResponse]
        · intro r hr
          simp [terminalResponses, buildPushResponse] at hr
          subst hr
          refine ⟨rfl, by simp [buildPushResponse], ?_⟩
          intro _
          show ("Failed to send SIGHUP" : String) ≠ ""
          decide
      · rw [if_neg hsig]
        rw [terminalResponses_append, terminalResponses_append, terminalResponses_dbStep,
            terminalResponses_applyRsync]
        constructor
        · simp [terminalResponses, buildPushResponse]
        · intro r hr
          simp [terminalResponses, buildPushResponse] at hr
          subst hr
          simp [buildPushResponse]

/-- Witness for the amended C1 at a concrete successful push. -/
theorem C1_amended_witness :
    (terminalResponses
        (handlePushRequest envAllOk "/app-files" (some msgBatch) fsEmpty).trace).length = 1 ∧
    ∀ r ∈ terminalResponses
        (handlePushRequest envAllOk "/app-files" (some msgBatch) fsEmpty).trace,
      r.pushId = msgBatch.pushId ∧
      ((handlePushRequest envAllOk "/app-files" (some msgBatch) fsEmpty).result = none ↔
        r.status = PushStatus.completed) ∧
      (r.status = PushStatus.failed → r.errorMessage ≠ "") :=
  C1_amended envAllOk "/app-files" msgBatch fsEmpty rfl rfl



theorem applyRsync_trace_full (env : ExecEnv) (dir : String) (bd : List Nat) (fs : FsState)
    (hb : bd ≠ []) (h1 : env.mkdirSidecarOk = true) (h2 : env.createTempOk = true)
    (h3 : env.writeTempOk = true) (h4 : env.closeTempOk = true)
    (h5 : env.mkdirTargetOk = true) :
    (applyRsyncBatch env dir bd fs).trace =
      [Event.createTempBatch (tempBatchPath env dir) bd, rsyncInvocation env dir,
       Event.removeTempBatch (tempBatchPath env dir)] ∧
    ((applyRsyncBatch env dir bd fs).result = none ↔ env.rsync = RsyncOutcome.success) := by
  unfold applyRsyncBatch
  cases hr : env.rsync <;> simp [hb, h1, h2, h3, h4, h5, hr]

theorem fromFirstRsync_dbT (env : ExecEnv) (m : PushMessage) (fs : FsState)
    (l : List Event) :
    fromFirstRsync ((handlerDbStep env m fs).trace ++ l) = fromFirstRsync l := by
  unfold fromFirstRsync
  exact dropWhile_append_all (dbStep_not_rsync env m fs)

theorem fromFirstRsync_cir (env : ExecEnv) (dir : String) (bd : List Nat)
    (tail : List Event) :
    fromFirstRsync ([Event.createTempBatch (tempBatchPath env dir) bd,
        rsyncInvocation env dir, Event.removeTempBatch (tempBatchPath env dir)] ++ tail) =
      rsyncInvocation env dir :: Event.removeTempBatch (tempBatchPath env dir) :: tail := by
  unfold fromFirstRsync
  simp [List.dropWhile_cons, Event.isRsyncInvoke, rsyncInvocation]

theorem fromFirstRsync_cir0 (env : ExecEnv) (dir : String) (bd : List Nat) :
    fromFirstRsync [Event.createTempBatch (tempBatchPath env dir) bd,
        rsyncInvocation env dir, Event.removeTempBatch (tempBatchPath env dir)] =
      [rsyncInvocation env dir, Event.removeTempBatch (tempBatchPath env dir)] := by
  unfold fromFirstRsync
  simp [List.dropWhile_cons, Event.isRsyncInvoke, rsyncInvocation]

/-- C3: for every PushRequest with non-empty batch_file (when the local
filesystem steps succeed), the handler records the batch bytes in a
temporary file inside the `.sidecar` control directory, invokes
`/app/bin/rsync --archive --read-batch=<temp> <dir>/` under a 60-second
timeout, treats a non-zero exit or timeout as a hard failure (error
returned, a FAILED response sent, and no restart signal after the rsync
invocation), and removes the temporary file after the invocation regardless
of the outcome. -/
theorem C3_batch_application (env : ExecEnv) (dir : String) (m : PushMessage) (fs : FsState)
    (hb : m.batchFile ≠ [])
    (h1 : env.mkdirSidecarOk = true) (h2 : env.createTempOk = true)
    (h3 : env.writeTempOk = true) (h4 : env.closeTempOk = true)
    (h5 : env.mkdirTargetOk = true) :
    Event.createTempBatch (tempBatchPath env dir) m.batchFile
        ∈ (handlePushRequest env dir (some m) fs).trace ∧
    rsyncInvocation env dir ∈ (handlePushRequest env dir (some m) fs).trace ∧
    Event.removeTempBatch (tempBatchPath env dir)
        ∈ fromFirstRsync (handlePushRequest env dir (some m) fs).trace ∧
    (env.rsync ≠ RsyncOutcome.success →
      (∃ emsg, (handlePushRequest env dir (some m) fs).result = some emsg) ∧
      (∃ emsg, Event.sendResponse (buildPushResponse m.pushId PushStatus.failed emsg)
          ∈ (handlePushRequest env dir (some m) fs).trace) ∧
      ∀ ok, Event.signal ok ∉ fromFirstRsync (handlePushRequest env dir (some m) fs).trace) := by
  have hfull := applyRsync_trace_full env dir m.batchFile (handlerDbStep env m fs).fs
    hb h1 h2 h3 h4 h5
  unfold handlePushRequest
  dsimp only
  simp only [if_neg hb]
  split
  · rename_i e heq
    refine ⟨by simp [hfull.1], by simp [hfull.1], ?_, ?_⟩
    · rw [List.append_assoc, fromFirstRsync_dbT, hfull.1, fromFirstRsync_cir]
      simp
    · intro _
      refine ⟨⟨_, rfl⟩, ⟨"Push application failed: " ++ e, by simp⟩, ?_⟩
      intro ok
      rw [List.append_assoc, fromFirstRsync_dbT, hfull.1, fromFirstRsync_cir]
      simp [rsyncInvocation]
  · rename_i heq
    have hsucc : env.rsync = RsyncOutcome.success := hfull.2.mp heq
    split_ifs <;>
      refine ⟨by simp [hfull.1], by simp [hfull.1], ?_, fun hne => absurd hsucc hne⟩
    · rw [fromFirstRsync_dbT, hfull.1, fromFirstRsync_cir0]
      simp
    · rw [fromFirstRsync_dbT, hfull.1, fromFirstRsync_cir0]
      simp
    · rw [List.append_assoc, fromFirstRsync_dbT, hfull.1, fromFirstRsync_cir]
      simp
    · rw [List.append_assoc, fromFirstRsync_dbT, hfull.1, fromFirstRsync_cir]
      simp

theorem handler_trace_prefix (env : ExecEnv) (dir : String) (m : PushMessage) (fs : FsState) :
    ∃ rest, (handlePushRequest env dir (some m) fs).trace =
      (handlerDbStep env m fs).trace ++ rest := by
  unfold handlePushRequest
  dsimp only
  by_cases hb : m.batchFile = []
  · simp only [if_pos hb]
    exact ⟨_, rfl⟩
  · simp only [if_neg hb]
    split
    · exact ⟨_, by rw [List.append_assoc]⟩
    · split_ifs
      · exact ⟨_, rfl⟩
      · exact ⟨_, rfl⟩
      · exact ⟨_, by rw [List.append_assoc]⟩
      · exact ⟨_, by rw [List.append_assoc]⟩

/-- C4 is violated on the code: a successful database-only push (empty
batch_file) completes without ever writing the push-id file — push_id
persistence is not performed for every push. -/
theorem C4_counterexample :
    (handlePushRequest envAllOk "/app-files" (some msgDbOnly) fsEmpty).result = none ∧
    (handlePushRequest envAllOk "/app-files" (some msgDbOnly) fsEmpty).fs.pushIdFile = none ∧
    (handlePushRequest envAllOk "/app-files" (some msgDbOnly) fsEmpty).trace =
      [Event.envRefresh true, Event.signal true,
       Event.sendResponse (buildPushResponse "p2" PushStatus.completed "")] := by
  decide

/-- C4 (amended): the push id is persisted to `.launcher/push_id` only for
pushes carrying a non-empty batch_file whose batch application succeeds;
there it is written immediately before the restart signal. A push with an
empty batch_file never writes the push-id file. -/
theorem C4_amended :
    (∀ (env : ExecEnv) (dir : String) (m : PushMessage) (fs : FsState), m.batchFile = [] →
       (handlePushRequest env dir (some m) fs).fs.pushIdFile = fs.pushIdFile ∧
       ∀ p c, Event.writePushIdFile p c ∉ (handlePushRequest env dir (some m) fs).trace) ∧
    (∀ (env : ExecEnv) (dir : String) (m : PushMessage) (fs : FsState), m.batchFile ≠ [] →
       env.mkdirSidecarOk = true → env.createTempOk = true → env.writeTempOk = true →
       env.closeTempOk = true → env.mkdirTargetOk = true →
       env.rsync = RsyncOutcome.success →
       env.mkdirLauncherOk = true → env.writePushIdOk = true →
       (handlePushRequest env dir (some m) fs).fs.pushIdFile = some m.pushId ∧
       List.IsInfix [Event.writePushIdFile (getLauncherDir dir ++ "/push_id") m.pushId,
                     Event.signal env.signalBatchOk]
         (handlePushRequest env dir (some m) fs).trace) := by
  constructor
  · intro env dir m fs hb
    unfold handlePushRequest
    dsimp only
    simp only [if_pos hb]
    refine ⟨(dbStep_fs_preserved env m fs).2.1, ?_⟩
    intro p c
    have := dbStep_no_pushIdEvent env m fs p c
    simp [List.mem_append]
    exact this
  · intro env dir m fs hb h1 h2 h3 h4 h5 hr hmk hwr
    have hsucc := applyRsync_success env dir m.batchFile (handlerDbStep env m fs).fs
      hb h1 h2 h3 h4 h5 hr
    unfold handlePushRequest
    dsimp only
    simp only [if_neg hb, hsucc]
    rw [if_neg (by simp [hmk]), if_neg (by simp [hwr])]
    by_cases hsig : env.signalBatchOk = false
    · rw [if_pos hsig, hsig]
      refine ⟨rfl, ?_⟩
      exact ⟨(handlerDbStep env m fs).trace ++
        [Event.createTempBatch (tempBatchPath env dir) m.batchFile, rsyncInvocation env dir,
         Event.removeTempBatch (tempBatchPath env dir)],
        [Event.sendResponse (buildPushResponse m.pushId PushStatus.failed "Failed to send SIGHUP")],
        by simp⟩
    · rw [if_neg hsig]
      have hsig2 : env.signalBatchOk = true := by
        cases hv : env.signalBatchOk
        · exact absurd hv hsig
        · rfl
      rw [hsig2]
      refine ⟨rfl, ?_⟩
      exact ⟨(handlerDbStep env m fs).trace ++
        [Event.createTempBatch (tempBatchPath env dir) m.batchFile, rsyncInvocation env dir,
         Event.removeTempBatch (tempBatchPath env dir)],
        [Event.sendResponse (buildPushResponse m.pushId PushStatus.completed "")],
        by simp⟩

/-- C10: a push with non-empty database_branch_updates whose environment
refresh succeeds sends a SIGHUP to the supervisor as part of the database
processing itself (the first two recorded events are the refresh and that
signal), even when batch_file is empty — a database-only push restarts the
application with a single COMPLETED response — and a push carrying both
database updates and a successfully applied batch signals the supervisor
twice. -/
theorem C10_database_update_signals (env : ExecEnv) (dir : String) (m : PushMessage)
    (fs : FsState)
    (hd : m.databaseBranchUpdates ≠ []) (hok : env.writeDatabaseEnvFileOk = true) :
    (handlePushRequest env dir (some m) fs).trace.take 2 =
      [Event.envRefresh true, Event.signal env.signalDbOk] ∧
    (m.batchFile = [] →
      (handlePushRequest env dir (some m) fs).trace =
        [Event.envRefresh true, Event.signal env.signalDbOk,
         Event.sendResponse (buildPushResponse m.pushId PushStatus.completed "")]) ∧
    (m.batchFile ≠ [] →
      env.mkdirSidecarOk = true → env.createTempOk = true → env.writeTempOk = true →
      env.closeTempOk = true → env.mkdirTargetOk = true →
      env.rsync = RsyncOutcome.success → env.mkdirLauncherOk = true →
      env.writePushIdOk = true →
      signalCount (handlePushRequest env dir (some m) fs).trace = 2) := by
  have hdb := dbStep_trace_ok env m fs hd hok
  refine ⟨?_, ?_, ?_⟩
  · obtain ⟨rest, hrest⟩ := handler_trace_prefix env dir m fs
    rw [hrest, hdb]
    simp
  · intro hb
    unfold handlePushRequest
    dsimp only
    simp only [if_pos hb]
    rw [hdb]
    simp
  · intro hb h1 h2 h3 h4 h5 hr hmk hwr
    have hsucc := applyRsync_success env dir m.batchFile (handlerDbStep env m fs).fs
      hb h1 h2 h3 h4 h5 hr
    unfold handlePushRequest
    dsimp only
    simp only [if_neg hb, hsucc]
    rw [if_neg (by simp [hmk]), if_neg (by simp [hwr])]
    by_cases hsig : env.signalBatchOk = false
    · rw [if_pos hsig, hdb]
      simp [signalCount, Event.isSignal, rsyncInvocation, List.countP_append, List.countP_cons]
    · rw [if_neg hsig, hdb]
      simp [signalCount, Event.isSignal, rsyncInvocation, List.countP_append, List.countP_cons]


/-- Witness for C3 at a concrete push whose rsync invocation fails. -/
theorem C3_witness :
    Event.createTempBatch (tempBatchPath envRsyncFail "/app-files") msgBatch.batchFile
        ∈ (handlePushRequest envRsyncFail "/app-files" (some msgBatch) fsEmpty).trace ∧
    rsyncInvocation envRsyncFail "/app-files"
        ∈ (handlePushRequest envRsyncFail "/app-files" (some msgBatch) fsEmpty).trace ∧
    Event.removeTempBatch (tempBatchPath envRsyncFail "/app-files")
        ∈ fromFirstRsync
            (handlePushRequest envRsyncFail "/app-files" (some msgBatch) fsEmpty).trace ∧
    (envRsyncFail.rsync ≠ RsyncOutcome.success →
      (∃ emsg, (handlePushRequest envRsyncFail "/app-files"
          (some msgBatch) fsEmpty).result = some emsg) ∧
      (∃ emsg, Event.sendResponse (buildPushResponse msgBatch.pushId PushStatus.failed emsg)
          ∈ (handlePushRequest envRsyncFail "/app-files" (some msgBatch) fsEmpty).trace) ∧
      ∀ ok, Event.signal ok ∉ fromFirstRsync
          (handlePushRequest envRsyncFail "/app-files" (some msgBatch) fsEmpty).trace) :=
  C3_batch_application envRsyncFail "/app-files" msgBatch fsEmpty (by decide) rfl rfl rfl rfl rfl

/-- Witness for the amended C4: an empty push leaves the push-id file
untouched; a successful batch push records its push id. -/
theorem C4_amended_witness :
    (handlePushRequest envAllOk "/app-files" (some msgEmpty) fsEmpty).fs.pushIdFile =
      fsEmpty.pushIdFile ∧
    (handlePushRequest envAllOk "/app-files" (some msgBatch) fsEmpty).fs.pushIdFile =
      some "p1" :=
  ⟨(C4_amended.1 envAllOk "/app-files" msgEmpty fsEmpty rfl).1,
   (C4_amended.2 envAllOk "/app-files" msgBatch fsEmpty (by decide)
      rfl rfl rfl rfl rfl rfl rfl rfl).1⟩

/-- Witness for C10 at a concrete push carrying both database updates and a
batch: the database signal leads the trace and two signals are sent. -/
theorem C10_witness :
    (handlePushRequest envAllOk "/app-files" (some msgBoth) fsEmpty).trace.take 2 =
      [Event.envRefresh true, Event.signal true] ∧
    signalCount (handlePushRequest envAllOk "/app-files" (some msgBoth) fsEmpty).trace = 2 :=
  ⟨(C10_database_update_signals envAllOk "/app-files" msgBoth fsEmpty (by decide) rfl).1,
   (C10_database_update_signals envAllOk "/app-files" msgBoth fsEmpty (by decide) rfl).2.2
      (by decide) rfl rfl rfl rfl rfl rfl rfl rfl⟩



theorem tmp_ne_env (p : String) : p ++ ".tmp" ≠ p := by
  intro h
  have h2 := congrArg String.length h
  rw [String.length_append] at h2
  have h3 : (".tmp" : String).length = 4 := rfl
  omega

theorem envKeyLe_trans (a b c : String × String)
    (h1 : envKeyLe a b = true) (h2 : envKeyLe b c = true) : envKeyLe a c = true := by
  unfold envKeyLe at h1 h2
  exact decide_eq_true (le_trans (of_decide_eq_true h1) (of_decide_eq_true h2))

theorem envKeyLe_total (a b : String × String) : (envKeyLe a b || envKeyLe b a) = true := by
  unfold envKeyLe
  rcases le_total a.1 b.1 with h | h <;> simp [h]

/-- C6: `UpdateFromPush` renders the Environment File deterministically as
`export KEY=value` lines sorted by key (the rendered pairs are a sorted
permutation of the pushed map) and replaces the file only by writing the
complete rendering to `<envFilePath>.tmp` and renaming it into place, so at
every crash point — including a torn write of arbitrary partial content
into the temp file — the Environment File holds either its previous content
or the complete new rendering, never a truncated intermediate. -/
theorem C6_env_render_atomic (em : EnvironmentManager) (vars : List (String × String))
    (fs : String → Option String) :
    runFsOps (updateFromPushOps em vars) fs em.envFilePath = some (renderEnvContent vars) ∧
    (∀ (k : Nat) (part : Option String),
      crashState (updateFromPushOps em vars) fs k part em.envFilePath = fs em.envFilePath ∨
      crashState (updateFromPushOps em vars) fs k part em.envFilePath =
        some (renderEnvContent vars)) ∧
    List.Pairwise (fun a b : String × String => a.1 ≤ b.1) (sortEnvPairs vars) ∧
    List.Perm (sortEnvPairs vars) vars := by
  have hne : em.envFilePath ≠ em.envFilePath ++ ".tmp" := (tmp_ne_env em.envFilePath).symm
  refine ⟨?_, ?_, ?_, ?_⟩
  · simp [updateFromPushOps, runFsOps, applyFsOp]
  · intro k part
    match k with
    | 0 =>
        left
        cases part <;> simp [crashState, updateFromPushOps, runFsOps]
    | 1 =>
        left
        cases part <;> simp [crashState, updateFromPushOps, runFsOps, applyFsOp, hne]
    | 2 =>
        left
        cases part <;> simp [crashState, updateFromPushOps, runFsOps, applyFsOp, hne]
    | (n + 3) =>
        right
        cases part <;> simp [crashState, updateFromPushOps, runFsOps, applyFsOp, List.take]
  · exact (List.sorted_mergeSort envKeyLe_trans envKeyLe_total vars).imp
      (fun h => by simpa [envKeyLe] using h)
  · exact List.mergeSort_perm vars envKeyLe


theorem shellUnquoteAux_plain_no_special (v : List Char)
    (h : v.any isSpecialChar = false) :
    shellUnquoteAux QuoteMode.plain v = some v := by
  induction v with
  | nil => rfl
  | cons c t ih =>
      rw [List.any_cons, Bool.or_eq_false_iff] at h
      have hcs : c ≠ squote := by
        intro he
        subst he
        have : isSpecialChar squote = true := by decide
        rw [this] at h
        exact Bool.true_eq_false.mp h.1
      have hcd : c ≠ dquote := by
        intro he
        subst he
        have : isSpecialChar dquote = true := by decide
        rw [this] at h
        exact Bool.true_eq_false.mp h.1
      rw [shellUnquoteAux, if_neg hcs, if_neg hcd, if_neg (by simp [h.1]), ih h.2]
      rfl

theorem shellUnquoteAux_single_escaped (v : List Char) :
    shellUnquoteAux QuoteMode.single (v.flatMap escQuoteChar ++ [squote]) = some v := by
  induction v with
  | nil => rfl
  | cons c t ih =>
      by_cases hc : c = squote
      · subst hc
        show shellUnquoteAux QuoteMode.single
          ((escQuoteChar squote ++ t.flatMap escQuoteChar) ++ [squote]) = _
        rw [escQuoteChar, if_pos rfl]
        simp only [List.cons_append, List.nil_append]
        rw [shellUnquoteAux, if_pos rfl]
        rw [shellUnquoteAux, if_neg (by decide), if_pos rfl]
        rw [shellUnquoteAux, if_neg (by decide), if_neg (by decide)]
        rw [shellUnquoteAux, if_pos rfl]
        rw [shellUnquoteAux, if_pos rfl]
        rw [ih]
        rfl
      · show shellUnquoteAux QuoteMode.single
          ((escQuoteChar c ++ t.flatMap escQuoteChar) ++ [squote]) = _
        rw [escQuoteChar, if_neg hc]
        simp only [List.cons_append, List.nil_append]
        rw [shellUnquoteAux, if_neg hc, ih]
        rfl

theorem escape_roundtrip_list (v : List Char) :
    shellUnquoteAux QuoteMode.plain (escapeEnvValueList v) = some v := by
  unfold escapeEnvValueList
  by_cases h0 : v = []
  · subst h0
    rfl
  · rw [if_neg h0]
    by_cases hs : v.any isSpecialChar = false
    · rw [if_pos hs]
      exact shellUnquoteAux_plain_no_special v hs
    · rw [if_neg hs]
      rw [List.cons_append]
      have hstep : shellUnquoteAux QuoteMode.plain
          (squote :: (v.flatMap escQuoteChar ++ [squote])) =
          shellUnquoteAux QuoteMode.single (v.flatMap escQuoteChar ++ [squote]) := by
        rw [shellUnquoteAux]
        rw [if_pos rfl]
      rw [hstep]
      exact shellUnquoteAux_single_escaped v

/-- C7: for every environment value containing a special character (single
quote, space, or another character of the shell-metacharacter class guarded
by `escapeEnvValue`), shell evaluation of the escaped rendering reproduces
the original string byte-for-byte: shell-unquote (escapeEnvValue v) = v. -/
theorem C7_escape_roundtrip (v : String) (hsp : v.toList.any isSpecialChar = true) :
    shellUnquote (escapeEnvValue v) = some v := by
  unfold shellUnquote escapeEnvValue
  rw [show (String.mk (escapeEnvValueList v.toList)).toList = escapeEnvValueList v.toList
    from rfl]
  rw [escape_roundtrip_list v.toList]
  show some (String.mk v.toList) = some v
  cases v
  rfl

/-- Witness for C7 at the concrete value a\x27b c. -/
theorem C7_witness : shellUnquote (escapeEnvValue sampleValue) = some sampleValue :=
  C7_escape_roundtrip sampleValue (by decide)

/-- C8 names a real bug: `Stop` is not idempotent. The first call succeeds
(closing the `done` channel and the live connection), but a second call —
exactly what happens when the run loop invokes `Stop` on context
cancellation and main invokes `Stop` afterwards — panics, because Go
panics on `close` of an already-closed channel. The run loop does observe a
raised stop at its check point and exits. -/
theorem C8_double_stop_panics :
    (stopSyncer connectedSyncer).1 = StopOutcome.ok ∧
    (stopSyncer (stopSyncer connectedSyncer).2).1 = StopOutcome.panicked ∧
    (runStep inputQuiet { phase := RunPhase.checkTop, stopRaised := true }).phase =
      RunPhase.exited := by
  decide

/-- C9 is violated on the code: the 5-second backoff `time.Sleep` consults
no channel, so a stop raised during the sleep does not terminate the wait
early — the sleeping state keeps ticking down instead of exiting. -/
theorem C9_counterexample :
    runStep inputQuiet { phase := RunPhase.sleeping 3, stopRaised := true } =
      { phase := RunPhase.sleeping 2, stopRaised := true } ∧
    (runStep inputQuiet { phase := RunPhase.sleeping 3, stopRaised := true }).phase ≠
      RunPhase.exited := by
  decide

/-- C9 (amended): a raised stop is observed at the loop-top select (so no
new dial is started from a check point), at the post-connection-loss
select, and by the message loop; the backoff sleep however is
uninterruptible: a stop raised during it takes effect only after the
remaining ticks elapse, after which the loop exits. -/
theorem C9_amended :
    (∀ inp : RunInput,
      (runStep inp { phase := RunPhase.checkTop, stopRaised := true }).phase =
        RunPhase.exited) ∧
    (∀ inp : RunInput,
      (runStep inp { phase := RunPhase.postLossCheck, stopRaised := true }).phase =
        RunPhase.exited) ∧
    (∀ inp : RunInput,
      (runStep inp { phase := RunPhase.msgLoop, stopRaised := true }).phase =
        RunPhase.postLossCheck) ∧
    (∀ (inp : RunInput) (n : Nat),
      (runStep inp { phase := RunPhase.sleeping (n + 1), stopRaised := true }).phase =
        RunPhase.sleeping n) ∧
    (∀ (inp : RunInput) (n : Nat),
      runSteps inp (n + 2) { phase := RunPhase.sleeping n, stopRaised := true } =
        { phase := RunPhase.exited, stopRaised := true }) := by
  refine ⟨fun inp => rfl, fun inp => rfl, ?_, fun inp n => rfl, ?_⟩
  · intro inp
    simp [runStep]
  · intro inp n
    induction n with
    | zero => rfl
    | succ k ih => simpa [runSteps, runStep] using ih


end CodeSync
